import Mathlib

/-
Verification of the DDL safety and execution pipeline of
internal/applier/ddlstatement.go against its natural-language specification.

The pipeline's own code (NewDDLStatement, needTableSize, getTableSize,
getWrapper, getConnectParams, ClientState) is translated directly below.
External collaborators that are not part of this repository's sources here
(the tengo diff/rendering engine, the mybase configuration store, the
util shell-out helpers) are modelled as explicit data: a diff carries its
rendering capability as a function, the configuration carries the result of
each typed lookup the pipeline performs, and the target carries the
row-check and size-query capabilities of its instance.
-/

deriving instance DecidableEq for Except

/-- Object types distinguished by the pipeline (tengo.ObjectType): databases,
tables, stored procedures and stored functions. -/
inductive ObjectType where
  | database
  | table
  | proc
  | func
deriving DecidableEq

/-- Diff kinds (tengo.DiffType). The Go constant DiffTypeNone is named
noneKind here. -/
inductive DiffType where
  | noneKind
  | create
  | drop
  | alter
  | rename
deriving DecidableEq

/-- Safety/formatting modifiers (tengo.StatementModifiers); only the fields
this pipeline reads or writes are modelled. Go field names: AllowUnsafe
(here allowUnsafeOps), AlgorithmClause, LockClause. -/
structure StatementModifiers where
  allowUnsafeOps : Bool
  algorithmClause : String
  lockClause : String
deriving DecidableEq

/-- Result of one invocation of the diff-rendering capability
diff.Statement(mods): the Go pair (string, error), with
tengo.IsForbiddenDiff distinguishing the forbidden error. The statement
text is recorded in the forbidden case as well, because Go assigns
ddl.stmt before inspecting the error (ddlstatement.go line 70). -/
inductive RenderResult where
  | ok (text : String)
  | forbidden (text : String)
  | err (e : String)
deriving DecidableEq

/-- A pending schema-change diff (tengo.ObjectDiff) as consumed by this
pipeline: its object key (type and name), its diff kind, and its external
capabilities. statementFn models diff.Statement; clausesFn models
TableDiff.Clauses with its error discarded (Go line 122 ignores it);
isCompounder and isCompoundStatement model the tengo.Compounder interface
check at line 85; addsForeignKeys models SplitAddForeignKeys returning a
non-nil addFKs at line 215. -/
structure ObjectDiff where
  objectType : ObjectType
  objectName : String
  diffType : DiffType
  statementFn : StatementModifiers → RenderResult
  clausesFn : StatementModifiers → String
  isCompounder : Bool
  isCompoundStatement : Bool
  addsForeignKeys : Bool

/-- The typed, read-only configuration lookups the pipeline performs
(mybase.Config is not under src/, so each lookup is a field). The GetBytes
lookups (safe-below-size, alter-wrapper-min-size) may fail on malformed
values; connectOptions is the result of
util.RealConnectOptions(Get("connect-options")), which may also fail. The
Changed flags model config.Changed on the respective option names. -/
structure Config where
  safeBelowSize : Except String Nat
  alterWrapperMinSize : Except String Nat
  ddlWrapper : String
  alterWrapper : String
  safeBelowSizeChanged : Bool
  alterWrapperMinSizeChanged : Bool
  alterWrapperChanged : Bool
  foreignKeyChecks : Bool
  connectOptions : Except String String
  user : String
  password : String
  environment : String

/-- Connection details of a target database instance (tengo.Instance);
displayName models Instance.String(). -/
structure Instance where
  host : String
  port : Nat
  socketPath : String
  displayName : String
deriving DecidableEq

/-- The directory a target was loaded from (fs.Dir): its configuration and
the BaseName/Path used for the DIRNAME/DIRPATH variables. -/
structure Dir where
  config : Config
  baseName : String
  path : String

/-- A construction target: instance, schema name, directory, and the
instance's row-check and size-query capabilities
(Instance.TableHasRows / Instance.TableSize, keyed by table name; the
schema argument is fixed per target). -/
structure Target where
  inst : Instance
  schemaName : String
  dir : Dir
  tableHasRows : String → Except String Bool
  tableSize : String → Except String Int

/-- Modelled from the spec: the rendered external command is stored as an
opaque executable unit owned by the DDLStatement (util.ShellOut is not under
src/); the unit records the command template and the interpolation variable
context it was built from. -/
structure ShellOut where
  command : String
  vars : List (String × String)
deriving DecidableEq

/-- The pipeline's sole output entity (applier.DDLStatement). -/
structure DDLStatement where
  stmt : String
  compound : Bool
  shellOut : Option ShellOut
  inst : Instance
  schemaName : String
  connectParams : String
deriving DecidableEq

/-- The three outcomes of Construct: (nil, nil) is noop, (ddl, nil) is ok,
(nil, err) is error. -/
inductive ConstructResult where
  | noop
  | ok (ddl : DDLStatement)
  | error (e : String)
deriving DecidableEq

/-- Client state reported for display (applier.ClientState). -/
structure ClientState where
  instanceName : String
  schemaName : String
  delimiter : String
deriving DecidableEq

/-- Modelled from the spec: applier.ConfigError (not under src/) is a
string-backed error type whose message is the wrapped text. -/
def ConfigError (msg : String) : String := msg

/-- Modelled from the spec: util.WrapStringWithPadding (not under src/)
word-wraps the statement text for terminal display; the spec states the
rejection error "embeds the would-be statement text", so wrapping is
modelled as preserving the text. -/
def WrapStringWithPadding (s : String) (_width : Int) (_padding : String) :
    String := s

/-- The rejection error message built at ddlstatement.go lines 71-73; the
terminal width passed to the wrap is irrelevant under the modelled wrap. -/
def rejectionMessage (stmt : String) : String :=
  "Preventing execution of unsafe or potentially destructive statement:\n" ++
    ("  # " ++ WrapStringWithPadding stmt 0 "  # ") ++
    "\nUse --allow-unsafe or --safe-below-size to permit this operation. For more information, see Safety Options section of --help."

/-- Substring containment in the sense of Go's strings.Contains: the
pattern's character list is an infix of the text's character list. -/
def strContains (s pat : String) : Prop := pat.data <:+: s.data

instance (s pat : String) : Decidable (strContains s pat) :=
  List.decidableInfix pat.data s.data

/-- Boolean form of strContains, used inside translated code. -/
def strContainsB (s pat : String) : Bool := decide (strContains s pat)

/-- ASCII uppercase of a string, modelling strings.ToUpper as applied to
option values at ddlstatement.go line 154. -/
def upperString (s : String) : String := String.mk (s.data.map Char.toUpper)

/-- The literal placeholder text searched for at line 154 (braces written
as escapes). -/
def sizePlaceholder : String := "\x7bSIZE\x7d"

/-- Translation of needTableSize (ddlstatement.go lines 137-160): true iff
the diff is a table diff that is not a CREATE and a size-related option is
in use. The two Go loops (over the Changed options and over the wrapper
options) are unrolled into disjunctions. -/
def needTableSize (diff : ObjectDiff) (config : Config) : Bool :=
  if diff.objectType ≠ ObjectType.table then false
  else if diff.diffType = DiffType.create then false
  else if config.safeBelowSizeChanged || config.alterWrapperMinSizeChanged then
    true
  else if strContainsB (upperString config.alterWrapper) sizePlaceholder ||
      strContainsB (upperString config.ddlWrapper) sizePlaceholder then
    true
  else false

/-- Translation of getTableSize (lines 165-171): a table with no rows is
reported as size 0; any row-check or size-query error is propagated. -/
def getTableSize (target : Target) (tableName : String) : Except String Int :=
  match target.tableHasRows tableName with
  | Except.error e => Except.error e
  | Except.ok hasRows =>
    if hasRows then target.tableSize tableName else Except.ok 0

/-- Translation of NewDDLStatement lines 47-61 (SizeResolver plus
SafetyGate): query the table size only when needed, then force the
allow-unsafe modifier when the size is strictly below the safe-below-size
threshold. Without a size query the size stays at its zero value. -/
def resolveSizeAndGate (diff : ObjectDiff) (mods : StatementModifiers)
    (target : Target) : Except String (Int × StatementModifiers) :=
  if needTableSize diff target.dir.config then
    match getTableSize target diff.objectName with
    | Except.error e => Except.error e
    | Except.ok tableSize =>
      match target.dir.config.safeBelowSize with
      | Except.error e => Except.error e
      | Except.ok safeBelowSize =>
        if tableSize < (safeBelowSize : Int) then
          Except.ok (tableSize, { mods with allowUnsafeOps := true })
        else
          Except.ok (tableSize, mods)
  else
    Except.ok (0, mods)

/-- Translation of getWrapper (lines 176-204). Go mutates mods through a
pointer to NewDDLStatement's local copy; here the (possibly updated)
modifiers are returned alongside the selected wrapper text. The Go local
`wrapper` (initialized to the ddl-wrapper option and conditionally
overwritten with the alter-wrapper option) is inlined into the branches. -/
def getWrapper (config : Config) (diff : ObjectDiff) (tableSize : Int)
    (mods : StatementModifiers) :
    Except String (String × StatementModifiers) :=
  if diff.objectType = ObjectType.table ∧ diff.diffType = DiffType.alter ∧
      config.alterWrapperChanged = true then
    match config.alterWrapperMinSize with
    | Except.error e => Except.error (ConfigError e)
    | Except.ok minSize =>
      if (minSize : Int) ≤ tableSize then
        if 0 < minSize then
          if mods.algorithmClause ≠ "" ∨ mods.lockClause ≠ "" then
            Except.ok (config.alterWrapper,
              { mods with algorithmClause := "", lockClause := "" })
          else
            Except.ok (config.alterWrapper, mods)
        else
          Except.ok (config.alterWrapper, mods)
      else
        Except.ok (config.ddlWrapper, mods)
  else
    Except.ok (config.ddlWrapper, mods)

/-- Translation of getConnectParams (lines 208-225): the Go type assertion
diff.(*tengo.TableDiff) succeeds exactly for table diffs, so non-table
diffs fall through to the empty result. -/
def getConnectParams (diff : ObjectDiff) (config : Config) : String :=
  if diff.objectType = ObjectType.table ∧ diff.diffType = DiffType.alter then
    if config.foreignKeyChecks = true ∧ diff.addsForeignKeys = true then
      "readTimeout=0&foreign_key_checks=1"
    else
      "readTimeout=0"
  else if diff.objectType = ObjectType.table ∧ diff.diffType = DiffType.drop then
    "readTimeout=0"
  else
    ""

/-- Modelled from the spec: the diff kind's display name
(tengo.DiffType.String is not under src/). -/
def diffTypeDisplay : DiffType → String
  | DiffType.noneKind => ""
  | DiffType.create => "CREATE"
  | DiffType.drop => "DROP"
  | DiffType.alter => "ALTER"
  | DiffType.rename => "RENAME"

/-- Modelled from the spec: the capitalized object-type name
(tengo.ObjectType.Caps is not under src/). -/
def objectTypeCaps : ObjectType → String
  | ObjectType.database => "DATABASE"
  | ObjectType.table => "TABLE"
  | ObjectType.proc => "PROC"
  | ObjectType.func => "FUNC"

/-- Translation of NewDDLStatement lines 39-43: database-level DDL must not
run inside a schema, so the schema name is forced empty for database
diffs. -/
def schemaNameFor (diff : ObjectDiff) (target : Target) : String :=
  if diff.objectType = ObjectType.database then "" else target.schemaName

/-- Translation of the variable context built at lines 92-124:
HOST/PORT/SOCKET come from the target instance (PORT is empty when a
socket path is in use and vice versa), CLAUSES and TABLE are populated
only for table diffs. -/
def buildVariables (diff : ObjectDiff) (target : Target) (schemaName : String)
    (stmtText : String) (tableSize : Int) (mods : StatementModifiers)
    (connOpts : String) : List (String × String) :=
  let socket := if target.inst.socketPath ≠ "" then target.inst.socketPath else ""
  let port := if target.inst.socketPath ≠ "" then "" else toString target.inst.port
  [("HOST", target.inst.host),
   ("PORT", port),
   ("SOCKET", socket),
   ("SCHEMA", schemaName),
   ("USER", target.dir.config.user),
   ("PASSWORD", target.dir.config.password),
   ("ENVIRONMENT", target.dir.config.environment),
   ("DDL", stmtText),
   ("CLAUSES", if diff.objectType = ObjectType.table then diff.clausesFn mods else ""),
   ("NAME", diff.objectName),
   ("TABLE", if diff.objectType = ObjectType.table then diff.objectName else ""),
   ("SIZE", toString tableSize),
   ("TYPE", diffTypeDisplay diff.diffType),
   ("CLASS", objectTypeCaps diff.objectType),
   ("CONNOPTS", connOpts),
   ("DIRNAME", target.dir.baseName),
   ("DIRPATH", target.dir.path)]

/-- Modelled from the spec: util.NewInterpolatedShellOut (not under src/)
builds the opaque executable unit from the command template and the
variable context; its own validation failures are not modelled, so the
construction succeeds. -/
def NewInterpolatedShellOut (command : String)
    (vars : List (String × String)) : Except String ShellOut :=
  Except.ok { command := command, vars := vars }

/-- Translation of NewDDLStatement lines 69-131 (StatementBuilder and
assembly): classify the rendered statement as forbidden, error, noop or
text, detect compound statements, then assemble either a direct-execution
unit (with connect params) or an external-command unit. The Go local
variable for the compound flag is inlined into the two record literals. -/
def constructRender (diff : ObjectDiff) (target : Target) (schemaName : String)
    (tableSize : Int) (wrapper : String) (mods : StatementModifiers) :
    ConstructResult :=
  match diff.statementFn mods with
  | RenderResult.forbidden text => ConstructResult.error (rejectionMessage text)
  | RenderResult.err e => ConstructResult.error e
  | RenderResult.ok text =>
    if text = "" then ConstructResult.noop
    else if wrapper = "" then
      ConstructResult.ok
        { stmt := text,
          compound := diff.isCompounder && diff.isCompoundStatement,
          shellOut := none,
          inst := target.inst,
          schemaName := schemaName,
          connectParams := getConnectParams diff target.dir.config }
    else
      match target.dir.config.connectOptions with
      | Except.error e => ConstructResult.error (ConfigError e)
      | Except.ok connOpts =>
        match NewInterpolatedShellOut wrapper
            (buildVariables diff target schemaName text tableSize mods connOpts) with
        | Except.error e =>
          ConstructResult.error
            ("A fatal error occurred with pre-processing a DDL statement: " ++ e ++ ".")
        | Except.ok so =>
          ConstructResult.ok
            { stmt := text,
              compound := diff.isCompounder && diff.isCompoundStatement,
              shellOut := some so,
              inst := target.inst,
              schemaName := schemaName,
              connectParams := "" }

/-- NewDDLStatement after the size/safety stage: wrapper selection (line 64)
followed by rendering and assembly. -/
def constructAfterGate (diff : ObjectDiff) (target : Target)
    (schemaName : String) (tableSize : Int) (mods : StatementModifiers) :
    ConstructResult :=
  match getWrapper target.dir.config diff tableSize mods with
  | Except.error e => ConstructResult.error e
  | Except.ok (wrapper, mods2) =>
    constructRender diff target schemaName tableSize wrapper mods2

/-- Translation of NewDDLStatement (lines 33-132): the full construction
pipeline Construct(diff, modifiers, target). -/
def NewDDLStatement (diff : ObjectDiff) (mods : StatementModifiers)
    (target : Target) : ConstructResult :=
  match resolveSizeAndGate diff mods target with
  | Except.error e => ConstructResult.error e
  | Except.ok (tableSize, mods1) =>
    constructAfterGate diff target (schemaNameFor diff target) tableSize mods1

/-- The modifiers value NewDDLStatement's local copy holds when the
rendering capability is invoked at line 70: the caller's value after the
safety gate (line 58) and the wrapper-driven clause clearing (lines
195-196). -/
def finalizedMods (diff : ObjectDiff) (mods : StatementModifiers)
    (target : Target) : Except String StatementModifiers :=
  match resolveSizeAndGate diff mods target with
  | Except.error e => Except.error e
  | Except.ok (tableSize, mods1) =>
    match getWrapper target.dir.config diff tableSize mods1 with
    | Except.error e => Except.error e
    | Except.ok (_, mods2) => Except.ok mods2

/-- The caller's modifiers record after NewDDLStatement returns. Go passes
mods by value (`mods tengo.StatementModifiers`, ddlstatement.go line 33),
so the assignments at line 58 and at lines 195-196 (reached through &mods,
the address of the callee-local copy) are invisible to the caller: after
the call its record still holds exactly the value it passed. -/
def callerModsAfterConstruct (_diff : ObjectDiff) (mods : StatementModifiers)
    (_target : Target) : StatementModifiers := mods

/-- Translation of DDLStatement.ClientState (lines 253-265): the default
delimiter is ";", overridden to "" when an external command is present and
to "//" for compound statements; the Go sequential overwrite of the
delimiter field is written as one conditional per branch. -/
def DDLStatement.clientState (ddl : DDLStatement) : ClientState :=
  if ddl.shellOut.isSome then
    { instanceName := ddl.inst.displayName, schemaName := ddl.schemaName,
      delimiter := "" }
  else if ddl.compound then
    { instanceName := ddl.inst.displayName, schemaName := ddl.schemaName,
      delimiter := "//" }
  else
    { instanceName := ddl.inst.displayName, schemaName := ddl.schemaName,
      delimiter := ";" }

/-
Concrete construction scenarios, used by the witness and counterexample
theorems below.
-/

/-- A configuration with every option at its unset default. -/
def baseConfig : Config :=
  { safeBelowSize := Except.ok 0, alterWrapperMinSize := Except.ok 0,
    ddlWrapper := "", alterWrapper := "",
    safeBelowSizeChanged := false, alterWrapperMinSizeChanged := false,
    alterWrapperChanged := false, foreignKeyChecks := false,
    connectOptions := Except.ok "", user := "root", password := "",
    environment := "production" }

/-- A TCP-connected target instance. -/
def baseInstance : Instance :=
  { host := "db1.example.com", port := 3306, socketPath := "",
    displayName := "db1.example.com:3306" }

/-- A directory carrying the default configuration. -/
def baseDir : Dir :=
  { config := baseConfig, baseName := "app", path := "/schemas/app" }

/-- A target whose table has rows and reports 4096 bytes on disk. -/
def baseTarget : Target :=
  { inst := baseInstance, schemaName := "app", dir := baseDir,
    tableHasRows := fun _ => Except.ok true,
    tableSize := fun _ => Except.ok 4096 }

/-- Caller-supplied modifiers with nothing requested. -/
def baseMods : StatementModifiers :=
  { allowUnsafeOps := false, algorithmClause := "", lockClause := "" }

/-- A table alteration whose rendering is rejected as unsafe. -/
def forbidAlterDiff : ObjectDiff :=
  { objectType := ObjectType.table, objectName := "widgets",
    diffType := DiffType.alter,
    statementFn := fun _ =>
      RenderResult.forbidden "ALTER TABLE widgets DROP COLUMN c",
    clausesFn := fun _ => "DROP COLUMN c",
    isCompounder := false, isCompoundStatement := false,
    addsForeignKeys := false }

/-- A configuration with safe-below-size explicitly set to 1000 bytes. -/
def gateConfig : Config :=
  { baseConfig with
    safeBelowSize := Except.ok 1000,
    safeBelowSizeChanged := true }

/-- A target whose table is 50 bytes, below the gateConfig threshold. -/
def gateTarget : Target :=
  { baseTarget with
    dir := { baseDir with config := gateConfig },
    tableSize := fun _ => Except.ok 50 }

/-- A plain table alteration that renders successfully. -/
def gateDiff : ObjectDiff :=
  { objectType := ObjectType.table, objectName := "widgets",
    diffType := DiffType.alter,
    statementFn := fun _ =>
      RenderResult.ok "ALTER TABLE widgets DROP COLUMN c",
    clausesFn := fun _ => "DROP COLUMN c",
    isCompounder := false, isCompoundStatement := false,
    addsForeignKeys := false }

/-- A configuration with an alteration-specific wrapper gated at 256 bytes. -/
def oscConfig : Config :=
  { baseConfig with
    alterWrapper := "gh-ost --execute",
    alterWrapperChanged := true,
    alterWrapperMinSize := Except.ok 256 }

/-- Caller modifiers requesting explicit algorithm and lock clauses. -/
def oscMods : StatementModifiers :=
  { allowUnsafeOps := false, algorithmClause := "INPLACE", lockClause := "NONE" }

/-- A table alteration that renders to an empty (no-op) statement. -/
def noopDiff : ObjectDiff :=
  { gateDiff with statementFn := fun _ => RenderResult.ok "" }

/-- A table alteration whose rendering fails with an ordinary error. -/
def errDiff : ObjectDiff :=
  { gateDiff with statementFn := fun _ => RenderResult.err "connection lost" }

/-- A table creation that renders successfully. -/
def directDiff : ObjectDiff :=
  { objectType := ObjectType.table, objectName := "pets",
    diffType := DiffType.create,
    statementFn := fun _ => RenderResult.ok "CREATE TABLE pets (id int)",
    clausesFn := fun _ => "",
    isCompounder := false, isCompoundStatement := false,
    addsForeignKeys := false }

/-- The statement constructed from directDiff against baseTarget. -/
def directDdl : DDLStatement :=
  { stmt := "CREATE TABLE pets (id int)", compound := false, shellOut := none,
    inst := baseInstance, schemaName := "app", connectParams := "" }

/-- A configuration routing all DDL through an external wrapper command. -/
def wrapConfig : Config :=
  { baseConfig with ddlWrapper := "gh-ost" }

/-- A target carrying wrapConfig. -/
def wrapTarget : Target :=
  { baseTarget with dir := { baseDir with config := wrapConfig } }

/-- The statement constructed from directDiff against wrapTarget: the
rendered text stays set alongside the external command. -/
def wrapDdl : DDLStatement :=
  { stmt := "CREATE TABLE pets (id int)", compound := false,
    shellOut := some
      { command := "gh-ost",
        vars := buildVariables directDiff wrapTarget "app"
          "CREATE TABLE pets (id int)" 0 baseMods "" },
    inst := baseInstance, schemaName := "app", connectParams := "" }

/-- A stored-procedure creation whose body is a compound statement. -/
def procDiff : ObjectDiff :=
  { objectType := ObjectType.proc, objectName := "cleanup",
    diffType := DiffType.create,
    statementFn := fun _ =>
      RenderResult.ok "CREATE PROCEDURE cleanup() BEGIN DELETE FROM t; END",
    clausesFn := fun _ => "",
    isCompounder := true, isCompoundStatement := true,
    addsForeignKeys := false }

/-- The statement constructed from procDiff against wrapTarget: compound is
true while an external command is present. -/
def procDdl : DDLStatement :=
  { stmt := "CREATE PROCEDURE cleanup() BEGIN DELETE FROM t; END",
    compound := true,
    shellOut := some
      { command := "gh-ost",
        vars := buildVariables procDiff wrapTarget "app"
          "CREATE PROCEDURE cleanup() BEGIN DELETE FROM t; END" 0 baseMods "" },
    inst := baseInstance, schemaName := "app", connectParams := "" }

/-- A database-level drop diff. -/
def dropDbDiff : ObjectDiff :=
  { objectType := ObjectType.database, objectName := "olddb",
    diffType := DiffType.drop,
    statementFn := fun _ => RenderResult.ok "DROP DATABASE olddb",
    clausesFn := fun _ => "",
    isCompounder := false, isCompoundStatement := false,
    addsForeignKeys := false }

/-- The statement constructed from dropDbDiff against baseTarget: its
connect params are empty, not the unlimited read timeout. -/
def dropDbDdl : DDLStatement :=
  { stmt := "DROP DATABASE olddb", compound := false, shellOut := none,
    inst := baseInstance, schemaName := "", connectParams := "" }

/-- A configuration with foreign-key checking enabled. -/
def fkConfig : Config :=
  { baseConfig with foreignKeyChecks := true }

/-- A target carrying fkConfig. -/
def fkTarget : Target :=
  { baseTarget with dir := { baseDir with config := fkConfig } }

/-- A table alteration that adds a foreign-key constraint. -/
def fkDiff : ObjectDiff :=
  { objectType := ObjectType.table, objectName := "orders",
    diffType := DiffType.alter,
    statementFn := fun _ =>
      RenderResult.ok "ALTER TABLE orders ADD FOREIGN KEY (cid) REFERENCES c (id)",
    clausesFn := fun _ => "ADD FOREIGN KEY (cid) REFERENCES c (id)",
    isCompounder := false, isCompoundStatement := false,
    addsForeignKeys := true }

/-- The statement constructed from fkDiff against fkTarget. -/
def fkDdl : DDLStatement :=
  { stmt := "ALTER TABLE orders ADD FOREIGN KEY (cid) REFERENCES c (id)",
    compound := false, shellOut := none, inst := baseInstance,
    schemaName := "app",
    connectParams := "readTimeout=0&foreign_key_checks=1" }

/-
Helper lemmas about string containment.
-/

theorem data_append (a b : String) : (a ++ b).data = a.data ++ b.data := rfl

theorem strContains_append_right (s t pat : String) (h : strContains t pat) :
    strContains (s ++ t) pat := by
  unfold strContains at h ⊢
  rw [data_append]
  exact h.trans (List.suffix_append s.data t.data).isInfix

theorem strContains_wrap (a b c t : String) :
    strContains (a ++ (b ++ t) ++ c) t := by
  unfold strContains
  refine ⟨a.data ++ b.data, c.data, ?_⟩
  simp [data_append, List.append_assoc]

/-- Claim C1: when the diff-rendering capability reports the rendered
operation as forbidden, Construct returns no DDLStatement together with an
error whose text contains the would-be statement text and the literal
substrings "--allow-unsafe" and "--safe-below-size". -/
theorem claim_C1_rejection (diff : ObjectDiff) (mods : StatementModifiers)
    (target : Target) (S : Int) (m1 : StatementModifiers) (w : String)
    (m2 : StatementModifiers) (t : String)
    (h1 : resolveSizeAndGate diff mods target = Except.ok (S, m1))
    (h2 : getWrapper target.dir.config diff S m1 = Except.ok (w, m2))
    (h3 : diff.statementFn m2 = RenderResult.forbidden t) :
    NewDDLStatement diff mods target =
      ConstructResult.error (rejectionMessage t) ∧
    strContains (rejectionMessage t) t ∧
    strContains (rejectionMessage t) "--allow-unsafe" ∧
    strContains (rejectionMessage t) "--safe-below-size" := by
  refine ⟨?_, ?_, ?_, ?_⟩
  · simp only [NewDDLStatement, constructAfterGate, constructRender, h1, h2, h3]
  · unfold rejectionMessage WrapStringWithPadding
    exact strContains_wrap _ _ _ t
  · unfold rejectionMessage
    exact strContains_append_right _ _ _ (by decide)
  · unfold rejectionMessage
    exact strContains_append_right _ _ _ (by decide)

/-- Witness for claim C1 at a concrete rejected alteration. -/
theorem claim_C1_witness :
    NewDDLStatement forbidAlterDiff baseMods baseTarget =
      ConstructResult.error
        (rejectionMessage "ALTER TABLE widgets DROP COLUMN c") ∧
    strContains (rejectionMessage "ALTER TABLE widgets DROP COLUMN c")
      "ALTER TABLE widgets DROP COLUMN c" ∧
    strContains (rejectionMessage "ALTER TABLE widgets DROP COLUMN c")
      "--allow-unsafe" ∧
    strContains (rejectionMessage "ALTER TABLE widgets DROP COLUMN c")
      "--safe-below-size" :=
  claim_C1_rejection forbidAlterDiff baseMods baseTarget 0 baseMods ""
    baseMods "ALTER TABLE widgets DROP COLUMN c" (by decide) (by decide) rfl

/-- Claim C2: when a table size query was performed and yielded size S, and
the safe-below-size threshold is X, the allow-unsafe modifier fed to the
rest of the construction (and hence to statement-text generation) is true
when S < X and is the caller-supplied value when S >= X. -/
theorem claim_C2_safety_gate (diff : ObjectDiff) (mods : StatementModifiers)
    (target : Target) (S : Int) (X : Nat)
    (hneed : needTableSize diff target.dir.config = true)
    (hsize : getTableSize target diff.objectName = Except.ok S)
    (hX : target.dir.config.safeBelowSize = Except.ok X) :
    resolveSizeAndGate diff mods target =
      Except.ok (S, { mods with
        allowUnsafeOps := (decide (S < (X : Int)) || mods.allowUnsafeOps) }) ∧
    NewDDLStatement diff mods target =
      constructAfterGate diff target (schemaNameFor diff target) S
        { mods with
          allowUnsafeOps := (decide (S < (X : Int)) || mods.allowUnsafeOps) } := by
  have hg : resolveSizeAndGate diff mods target =
      Except.ok (S, { mods with
        allowUnsafeOps := (decide (S < (X : Int)) || mods.allowUnsafeOps) }) := by
    unfold resolveSizeAndGate
    rw [hneed, hsize, hX]
    by_cases hlt : S < (X : Int)
    · simp [hlt]
    · simp [hlt]
  refine ⟨hg, ?_⟩
  simp only [NewDDLStatement, hg]

/-- Witness for claim C2: a 50-byte table under a 1000-byte threshold has
the allow-unsafe modifier forced on. -/
theorem claim_C2_witness :
    resolveSizeAndGate gateDiff baseMods gateTarget =
      Except.ok ((50 : Int), { baseMods with allowUnsafeOps := true }) ∧
    NewDDLStatement gateDiff baseMods gateTarget =
      constructAfterGate gateDiff gateTarget
        (schemaNameFor gateDiff gateTarget) 50
        { baseMods with allowUnsafeOps := true } :=
  claim_C2_safety_gate gateDiff baseMods gateTarget 50 1000 (by decide)
    (by decide) (by decide)

/-- Claim C3: for a table alteration with the alter-wrapper explicitly
configured and its minimum-size threshold M readable, size at or above M
selects the alteration-specific template (clearing the algorithm/lock
modifiers when M is strictly positive), while size below M keeps the base
template and the modifiers unchanged. -/
theorem claim_C3_wrapper_gate (config : Config) (diff : ObjectDiff) (S : Int)
    (mods : StatementModifiers) (M : Nat)
    (hobj : diff.objectType = ObjectType.table)
    (hdt : diff.diffType = DiffType.alter)
    (hch : config.alterWrapperChanged = true)
    (hM : config.alterWrapperMinSize = Except.ok M) :
    ((M : Int) ≤ S →
      getWrapper config diff S mods =
        Except.ok (config.alterWrapper,
          if 0 < M then { mods with algorithmClause := "", lockClause := "" }
          else mods)) ∧
    (S < (M : Int) →
      getWrapper config diff S mods =
        Except.ok (config.ddlWrapper, mods)) := by
  constructor
  · intro hle
    by_cases hM0 : 0 < M
    · by_cases hcl : mods.algorithmClause ≠ "" ∨ mods.lockClause ≠ ""
      · simp [getWrapper, hM, hobj, hdt, hch, hle, hM0, hcl]
      · push_neg at hcl
        obtain ⟨ha, hl⟩ := hcl
        simp only [getWrapper, hM, hobj, hdt, hch, hle, hM0, ha, hl]
        cases mods with
        | mk au alg lk =>
          simp_all [getWrapper]
    · simp [getWrapper, hM, hobj, hdt, hch, hle, hM0]
  · intro hlt
    simp [getWrapper, hM, hobj, hdt, hch, hlt, not_le.mpr hlt]

/-- Witness for claim C3: a 1024-byte table at a 256-byte threshold selects
the alter-wrapper and clears the requested algorithm/lock clauses. -/
theorem claim_C3_witness :
    getWrapper oscConfig gateDiff 1024 oscMods =
      Except.ok (oscConfig.alterWrapper,
        { oscMods with algorithmClause := "", lockClause := "" }) :=
  (claim_C3_wrapper_gate oscConfig gateDiff 1024 oscMods 256 rfl rfl rfl
    rfl).1 (by decide)

/-- Claim C4: with the earlier stages successful, an empty rendered
statement with no error yields the no-op outcome (absent statement, absent
error), and any non-forbidden rendering error is returned unmodified with
an absent statement. -/
theorem claim_C4_noop_passthrough (diff : ObjectDiff)
    (mods : StatementModifiers) (target : Target) (S : Int)
    (m1 : StatementModifiers) (w : String) (m2 : StatementModifiers)
    (h1 : resolveSizeAndGate diff mods target = Except.ok (S, m1))
    (h2 : getWrapper target.dir.config diff S m1 = Except.ok (w, m2)) :
    (diff.statementFn m2 = RenderResult.ok "" →
      NewDDLStatement diff mods target = ConstructResult.noop) ∧
    (∀ e, diff.statementFn m2 = RenderResult.err e →
      NewDDLStatement diff mods target = ConstructResult.error e) := by
  constructor
  · intro h3
    simp [NewDDLStatement, constructAfterGate, constructRender, h1, h2, h3]
  · intro e h3
    simp [NewDDLStatement, constructAfterGate, constructRender, h1, h2, h3]

/-- Witness for claim C4: a rendering that returns empty text yields the
no-op outcome; a rendering error is passed through unchanged. -/
theorem claim_C4_witness :
    NewDDLStatement noopDiff baseMods baseTarget = ConstructResult.noop ∧
    NewDDLStatement errDiff baseMods baseTarget =
      ConstructResult.error "connection lost" :=
  ⟨(claim_C4_noop_passthrough noopDiff baseMods baseTarget 0 baseMods ""
      baseMods (by decide) (by decide)).1 rfl,
   (claim_C4_noop_passthrough errDiff baseMods baseTarget 0 baseMods ""
      baseMods (by decide) (by decide)).2 "connection lost" rfl⟩

/-- Inversion of a successful assembly: every constructed DDLStatement has
non-empty statement text, its compound flag is exactly the diff's
self-reported compound capability, its external command is present exactly
when a non-empty wrapper was selected, and its connect params come from
getConnectParams in the direct case and are empty in the wrapper case. -/
theorem constructRender_ok_cases (diff : ObjectDiff) (target : Target)
    (schemaName : String) (tableSize : Int) (wrapper : String)
    (mods : StatementModifiers) (ddl : DDLStatement)
    (h : constructRender diff target schemaName tableSize wrapper mods =
      ConstructResult.ok ddl) :
    ddl.stmt ≠ "" ∧
    ddl.compound = (diff.isCompounder && diff.isCompoundStatement) ∧
    (ddl.shellOut = none ↔ wrapper = "") ∧
    (wrapper = "" →
      ddl.connectParams = getConnectParams diff target.dir.config) ∧
    (wrapper ≠ "" → ddl.connectParams = "") ∧
    ddl.inst = target.inst ∧ ddl.schemaName = schemaName := by
  unfold constructRender at h
  split at h
  · simp at h
  · simp at h
  · split at h
    · simp at h
    · next ht =>
      split at h
      · next hw =>
        injection h with h2
        subst h2
        exact ⟨ht, rfl, by simp [hw], fun _ => rfl, fun hww => (hww hw).elim,
          rfl, rfl⟩
      · next hw =>
        split at h
        · simp at h
        · simp only [NewInterpolatedShellOut] at h
          injection h with h2
          subst h2
          exact ⟨ht, rfl, by simp [hw], fun hww => (hw hww).elim,
            fun _ => rfl, rfl, rfl⟩

/-- Claim C5 counterexample: with a wrapper configured, a successful
construction has non-empty statement text AND a present external command,
so "exactly one of the two" is violated. -/
theorem claim_C5_counterexample :
    NewDDLStatement directDiff baseMods wrapTarget =
      ConstructResult.ok wrapDdl ∧
    ¬ ((wrapDdl.stmt ≠ "" ∧ wrapDdl.shellOut = none) ∨
       (wrapDdl.stmt = "" ∧ wrapDdl.shellOut ≠ none)) :=
  ⟨by decide, by decide⟩

/-- Claim C5 (amended): every successfully constructed DDLStatement has
non-empty statement text (so the two fields are never both absent), and the
external command is present exactly when a non-empty wrapper was selected
(in which case the statement text remains set alongside it). -/
theorem claim_C5_amended (diff : ObjectDiff) (mods : StatementModifiers)
    (target : Target) (S : Int) (m1 : StatementModifiers) (w : String)
    (m2 : StatementModifiers) (ddl : DDLStatement)
    (h1 : resolveSizeAndGate diff mods target = Except.ok (S, m1))
    (h2 : getWrapper target.dir.config diff S m1 = Except.ok (w, m2))
    (hok : NewDDLStatement diff mods target = ConstructResult.ok ddl) :
    ddl.stmt ≠ "" ∧ (ddl.shellOut = none ↔ w = "") := by
  have hc : constructRender diff target (schemaNameFor diff target) S w m2 =
      ConstructResult.ok ddl := by
    rw [← hok]
    simp [NewDDLStatement, constructAfterGate, h1, h2]
  obtain ⟨a, _, c, _, _, _, _⟩ :=
    constructRender_ok_cases diff target (schemaNameFor diff target) S w m2
      ddl hc
  exact ⟨a, c⟩

/-- Witness for the amended claim C5 at a direct (wrapper-absent)
construction. -/
theorem claim_C5_witness :
    directDdl.stmt ≠ "" ∧ (directDdl.shellOut = none ↔ "" = "") :=
  claim_C5_amended directDiff baseMods baseTarget 0 baseMods "" baseMods
    directDdl (by decide) (by decide) (by decide)

/-- Claim C6 counterexample: a compound stored-procedure creation routed
through a ddl-wrapper yields compound = true together with a present
external command. -/
theorem claim_C6_counterexample :
    NewDDLStatement procDiff baseMods wrapTarget =
      ConstructResult.ok procDdl ∧
    procDdl.compound = true ∧ procDdl.shellOut ≠ none :=
  ⟨by decide, by decide, by decide⟩

/-- Claim C6 (amended): for every successfully constructed DDLStatement the
compound flag equals the diff's self-reported compound-statement
capability, independently of whether an external command is present. -/
theorem claim_C6_amended (diff : ObjectDiff) (mods : StatementModifiers)
    (target : Target) (S : Int) (m1 : StatementModifiers) (w : String)
    (m2 : StatementModifiers) (ddl : DDLStatement)
    (h1 : resolveSizeAndGate diff mods target = Except.ok (S, m1))
    (h2 : getWrapper target.dir.config diff S m1 = Except.ok (w, m2))
    (hok : NewDDLStatement diff mods target = ConstructResult.ok ddl) :
    ddl.compound = (diff.isCompounder && diff.isCompoundStatement) := by
  have hc : constructRender diff target (schemaNameFor diff target) S w m2 =
      ConstructResult.ok ddl := by
    rw [← hok]
    simp [NewDDLStatement, constructAfterGate, h1, h2]
  exact (constructRender_ok_cases diff target (schemaNameFor diff target) S w
    m2 ddl hc).2.1

/-- Witness for the amended claim C6. -/
theorem claim_C6_witness :
    procDdl.compound = (procDiff.isCompounder && procDiff.isCompoundStatement) :=
  claim_C6_amended procDiff baseMods wrapTarget 0 baseMods "gh-ost" baseMods
    procDdl (by decide) (by decide) (by decide)

/-- Claim C7 counterexample: there is no input on which the caller's
modifiers record differs after Construct returns — Go passes the record by
value, so the pipeline's assignments touch only its own copy. -/
theorem claim_C7_counterexample :
    ¬ ∃ diff mods target, callerModsAfterConstruct diff mods target ≠ mods := by
  rintro ⟨d, m, t, hne⟩
  exact hne rfl

/-- Claim C7 (amended): Construct finalizes a private copy of the
modifiers — on some inputs the finalized copy it renders with differs from
the caller's value — but the caller's own record, passed by value, is
unchanged after the call. -/
theorem claim_C7_amended :
    (∀ diff mods target, callerModsAfterConstruct diff mods target = mods) ∧
    (∃ diff mods target m2,
      finalizedMods diff mods target = Except.ok m2 ∧ m2 ≠ mods) := by
  constructor
  · intro d m t
    rfl
  · exact ⟨gateDiff, baseMods, gateTarget,
      { baseMods with allowUnsafeOps := true }, by decide, by decide⟩

/-- Claim C8 counterexample: a database-level drop executed directly gets
empty connect params, not the unlimited read timeout the claim assigns to
every drop. -/
theorem claim_C8_counterexample :
    NewDDLStatement dropDbDiff baseMods baseTarget =
      ConstructResult.ok dropDbDdl ∧
    dropDbDiff.diffType = DiffType.drop ∧
    dropDbDdl.shellOut = none ∧
    dropDbDdl.connectParams ≠ "readTimeout=0" :=
  ⟨by decide, rfl, rfl, by decide⟩

/-- Claim C8 (amended): a directly-executed statement's connect params are
getConnectParams, which depends on whether the diff is a table diff as
well as on its kind: a table alteration adding a foreign key with
fk-checking enabled gets readTimeout=0 with foreign_key_checks=1, any
other table alteration gets readTimeout=0, a table drop gets readTimeout=0,
and every other diff — creations and all non-table diffs, including
database-level drops — gets the empty string. -/
theorem claim_C8_connect_params (diff : ObjectDiff)
    (mods : StatementModifiers) (target : Target) (S : Int)
    (m1 : StatementModifiers) (m2 : StatementModifiers) (ddl : DDLStatement)
    (h1 : resolveSizeAndGate diff mods target = Except.ok (S, m1))
    (h2 : getWrapper target.dir.config diff S m1 = Except.ok ("", m2))
    (hok : NewDDLStatement diff mods target = ConstructResult.ok ddl) :
    ddl.connectParams = getConnectParams diff target.dir.config ∧
    (diff.objectType = ObjectType.table → diff.diffType = DiffType.alter →
      target.dir.config.foreignKeyChecks = true → diff.addsForeignKeys = true →
      ddl.connectParams = "readTimeout=0&foreign_key_checks=1") ∧
    (diff.objectType = ObjectType.table → diff.diffType = DiffType.alter →
      ¬(target.dir.config.foreignKeyChecks = true ∧
        diff.addsForeignKeys = true) →
      ddl.connectParams = "readTimeout=0") ∧
    (diff.objectType = ObjectType.table → diff.diffType = DiffType.drop →
      ddl.connectParams = "readTimeout=0") ∧
    (diff.objectType ≠ ObjectType.table → ddl.connectParams = "") ∧
    (diff.diffType = DiffType.create → ddl.connectParams = "") := by
  have hc : constructRender diff target (schemaNameFor diff target) S "" m2 =
      ConstructResult.ok ddl := by
    rw [← hok]
    simp [NewDDLStatement, constructAfterGate, h1, h2]
  have hcp := (constructRender_ok_cases diff target
    (schemaNameFor diff target) S "" m2 ddl hc).2.2.2.1 rfl
  refine ⟨hcp, ?_, ?_, ?_, ?_, ?_⟩
  · intro hobj hdt hfk hafk
    rw [hcp]
    simp [getConnectParams, hobj, hdt, hfk, hafk]
  · intro hobj hdt hn
    rw [hcp]
    simp [getConnectParams, hobj, hdt, hn]
  · intro hobj hdt
    rw [hcp]
    simp [getConnectParams, hobj, hdt]
  · intro hobj
    rw [hcp]
    simp [getConnectParams, hobj]
  · intro hdt
    rw [hcp]
    simp [getConnectParams, hdt]

/-- Witness for the amended claim C8: an alteration adding a foreign key
with foreign-key checking enabled. -/
theorem claim_C8_witness :
    fkDdl.connectParams = "readTimeout=0&foreign_key_checks=1" :=
  (claim_C8_connect_params fkDiff baseMods fkTarget 0 baseMods baseMods
    fkDdl (by decide) (by decide) (by decide)).2.1 rfl rfl rfl rfl

/-- Claim C9: a table-size query is required iff the diff targets a table,
its operation is not a creation, and a size-related option is in use (the
two explicit thresholds or a wrapper template containing the size
placeholder); for a creation no size query is issued — construction is
independent of the row-check and size-query capabilities — and the size
is treated as 0. -/
theorem claim_C9_size_query (diff : ObjectDiff) (mods : StatementModifiers)
    (target : Target) (f : String → Except String Bool)
    (g : String → Except String Int) :
    (needTableSize diff target.dir.config = true ↔
      (diff.objectType = ObjectType.table ∧ diff.diffType ≠ DiffType.create ∧
        (target.dir.config.safeBelowSizeChanged = true ∨
         target.dir.config.alterWrapperMinSizeChanged = true ∨
         strContainsB (upperString target.dir.config.alterWrapper)
           sizePlaceholder = true ∨
         strContainsB (upperString target.dir.config.ddlWrapper)
           sizePlaceholder = true))) ∧
    (diff.diffType = DiffType.create →
      resolveSizeAndGate diff mods target = Except.ok (0, mods) ∧
      NewDDLStatement diff mods
          { target with tableHasRows := f, tableSize := g } =
        NewDDLStatement diff mods target) := by
  constructor
  · by_cases h1 : diff.objectType = ObjectType.table <;>
    by_cases h2 : diff.diffType = DiffType.create <;>
    by_cases h3 : target.dir.config.safeBelowSizeChanged = true <;>
    by_cases h4 : target.dir.config.alterWrapperMinSizeChanged = true <;>
    by_cases h5 : strContainsB (upperString target.dir.config.alterWrapper)
      sizePlaceholder = true <;>
    by_cases h6 : strContainsB (upperString target.dir.config.ddlWrapper)
      sizePlaceholder = true <;>
    simp [needTableSize, h1, h2, h3, h4, h5, h6]
  · intro hcreate
    have hfalse : needTableSize diff target.dir.config = false := by
      simp [needTableSize, hcreate]
    have e1 : resolveSizeAndGate diff mods target = Except.ok (0, mods) := by
      simp [resolveSizeAndGate, hfalse]
    have e2 : resolveSizeAndGate diff mods
        { target with tableHasRows := f, tableSize := g } =
        Except.ok (0, mods) := by
      simp [resolveSizeAndGate, hfalse]
    refine ⟨e1, ?_⟩
    simp only [NewDDLStatement, e1, e2]
    rfl

/-- Witness for claim C9: a creation constructs identically even when the
row-check and size-query capabilities would fail. -/
theorem claim_C9_witness :
    resolveSizeAndGate directDiff baseMods baseTarget =
      Except.ok (0, baseMods) ∧
    NewDDLStatement directDiff baseMods
        { baseTarget with
          tableHasRows := fun _ => Except.error "unreachable",
          tableSize := fun _ => Except.error "unreachable" } =
      NewDDLStatement directDiff baseMods baseTarget :=
  (claim_C9_size_query directDiff baseMods baseTarget
    (fun _ => Except.error "unreachable")
    (fun _ => Except.error "unreachable")).2 rfl

/-- Claim C10: a constructed DDLStatement's ClientState delimiter is empty
when an external command is present, the special sequence for compound
statements otherwise, and the default semicolon in all remaining cases. -/
theorem claim_C10_delimiter (diff : ObjectDiff) (mods : StatementModifiers)
    (target : Target) (ddl : DDLStatement)
    (_hok : NewDDLStatement diff mods target = ConstructResult.ok ddl) :
    (DDLStatement.clientState ddl).delimiter =
      (if ddl.shellOut.isSome then ""
       else if ddl.compound then "//" else ";") := by
  unfold DDLStatement.clientState
  split_ifs <;> rfl

/-- Witness for claim C10 at a direct construction. -/
theorem claim_C10_witness :
    (DDLStatement.clientState directDdl).delimiter =
      (if directDdl.shellOut.isSome then ""
       else if directDdl.compound then "//" else ";") :=
  claim_C10_delimiter directDiff baseMods baseTarget directDdl (by decide)
